/-
Verification of the data-cleaning / validation / partition / persistence
pipeline of the `tutorial-gx-in-the-data-pipeline` repository.

The pandas dataframes of the Python code are embedded as rectangular
tables of `Value` cells (`DataFrame`).  In-place column assignment
(`df[c] = ...`) is modelled through an explicit heap of frames, so that
non-mutation of the caller's frame is a provable statement rather than a
byproduct of the embedding.  Fallible Python operations (KeyError on a
missing column or dictionary entry, AttributeError, ValueError) are
embedded as `Except PipeErr`.
-/
import Mathlib

namespace GxPipeline

/-- Error taxonomy of the pipeline, following the spec's names.
`schemaMismatch` stands for a KeyError on a missing dataframe column,
`unknownCategory` for a KeyError on a fixed lookup table,
`missingDiagnostics` for the KeyError raised when a validation result
carries no `unexpected_index_list`, `attributeError` / `valueError` for
the Python exceptions of the same names, `validationHardFailure` for the
exception a DAG raises when a hard-fail rule set fails, and
`stillRunning` for the "gave up waiting" error of the polling loop. -/
inductive PipeErr where
  | schemaMismatch
  | unknownCategory
  | missingDiagnostics
  | attributeError
  | valueError
  | invalidRef
  | validationHardFailure
  | stillRunning
  deriving DecidableEq, Repr

/-- A single dataframe cell: the dynamic Python values this pipeline
actually moves around (strings, ints, floats — embedded as exact
rationals since no float arithmetic is performed — and nulls). -/
inductive Value where
  | vStr (s : String)
  | vInt (n : Int)
  | vRat (q : ℚ)
  | vNull
  deriving DecidableEq, Repr

instance exceptDecEq {ε : Type u} {α : Type v} [DecidableEq ε] [DecidableEq α] :
    DecidableEq (Except ε α) := fun a b =>
  match a, b with
  | .ok x, .ok y =>
      if h : x = y then .isTrue (by rw [h]) else .isFalse (fun hh => by cases hh; exact h rfl)
  | .error e, .error f =>
      if h : e = f then .isTrue (by rw [h]) else .isFalse (fun hh => by cases hh; exact h rfl)
  | .ok _, .error _ => .isFalse (fun hh => by cases hh)
  | .error _, .ok _ => .isFalse (fun hh => by cases hh)

/-- Python `str.replace(pat, "")` for a one-character pattern: removes
every occurrence of the character. -/
def removeChar (c : Char) (s : String) : String :=
  ⟨s.toList.filter (fun d => d != c)⟩

/-- Python `str.strip()`: drop leading and trailing whitespace. -/
def stripChars (l : List Char) : List Char :=
  ((l.dropWhile Char.isWhitespace).reverse.dropWhile Char.isWhitespace).reverse

/-- Numeric value of a list of decimal digit characters. -/
def digitsVal (l : List Char) : Nat :=
  l.foldl (fun a c => 10 * a + (c.toNat - 48)) 0

/-- Python `float(s)` on an already-stripped string: optional sign,
decimal digits with at most one point.  Returns `none` where Python
raises ValueError. -/
def pyFloat? (l : List Char) : Option ℚ :=
  let signAndRest : Bool × List Char :=
    match l with
    | '-' :: rest => (true, rest)
    | '+' :: rest => (false, rest)
    | _ => (false, l)
  let neg := signAndRest.1
  let body := signAndRest.2
  let mkSigned (n d : Nat) : ℚ := if neg then mkRat (-(n : Int)) d else mkRat n d
  let ip := body.takeWhile (fun c => c != '.')
  match body.dropWhile (fun c => c != '.') with
  | [] =>
      if ip ≠ [] ∧ ip.all Char.isDigit then some (mkSigned (digitsVal ip) 1) else none
  | _ :: fp =>
      if (ip ≠ [] ∨ fp ≠ []) ∧ ip.all Char.isDigit ∧ fp.all Char.isDigit then
        some (mkSigned (digitsVal ip * 10 ^ fp.length + digitsVal fp) (10 ^ fp.length))
      else none

/-- The currency-cleaning lambda of `clean_product_data`:
`float(x.replace("$", "").replace(",", "").strip())`.  A non-string
input has no `.replace` method, so Python raises AttributeError. -/
def parseCurrencyValue : Value → Except PipeErr Value
  | .vStr s =>
      match pyFloat? (stripChars ((removeChar ',' (removeChar '$' s)).toList)) with
      | some q => .ok (.vRat q)
      | none => .error .valueError
  | _ => .error .attributeError

/-- `COUNTRY_NAME_TO_CODE` of `clean_customer_data`. -/
def COUNTRY_NAME_TO_CODE : List (String × String) :=
  [("Australia", "AU"), ("Canada", "CA"), ("Germany", "DE"), ("France", "FR"),
   ("Italy", "IT"), ("Netherlands", "NL"), ("United Kingdom", "GB"),
   ("United States", "US")]

/-- Whether the country-mapping lambda succeeds on a cell. -/
def countryMapped (v : Value) : Bool :=
  match v with
  | .vStr s => (COUNTRY_NAME_TO_CODE.lookup s).isSome
  | _ => false

/-- The country-mapping lambda of `clean_customer_data`:
`COUNTRY_NAME_TO_CODE[x]`; a missing entry (or a non-string key, which
the dictionary cannot contain) raises KeyError — the spec's
`UnknownCategory`. -/
def countryNameToCode : Value → Except PipeErr Value
  | .vStr s =>
      match COUNTRY_NAME_TO_CODE.lookup s with
      | some code => .ok (.vStr code)
      | none => .error .unknownCategory
  | _ => .error .unknownCategory

/-- Python `str.title()`: the first letter of every alphabetic run is
upper-cased, the rest lower-cased. -/
def pyTitleAux : Bool → List Char → List Char
  | _, [] => []
  | prevAlpha, c :: cs =>
      if c.isAlpha then
        (if prevAlpha then c.toLower else c.toUpper) :: pyTitleAux true cs
      else
        c :: pyTitleAux false cs

/-- The city-cleaning lambda of `clean_customer_data`: `x.title()`.
A non-string has no `.title` method (AttributeError). -/
def titleCaseValue : Value → Except PipeErr Value
  | .vStr s => .ok (.vStr ⟨pyTitleAux false s.toList⟩)
  | _ => .error .attributeError

example : parseCurrencyValue (.vStr "$1,299.00 ") = .ok (.vRat (mkRat 129900 100)) := by
  decide
example : parseCurrencyValue (.vStr "$6.62 ") = .ok (.vRat (mkRat 662 100)) := by decide
example : parseCurrencyValue (.vRat 1299) = .error .attributeError := rfl
example : countryNameToCode (.vStr "Netherlands") = .ok (.vStr "NL") := rfl
example : countryNameToCode (.vStr "Atlantis") = .error .unknownCategory := rfl
example : titleCaseValue (.vStr "new york") = .ok (.vStr "New York") := by decide

/-- A pandas dataframe: named columns, an index of row labels, and the
row data.  A well-formed frame is rectangular with one label per row. -/
structure DataFrame where
  columns : List String
  index : List Nat
  rows : List (List Value)
  deriving DecidableEq, Repr

/-- The cell of row `r` at column `c` of a frame with columns `cols`
(first column of that name, as pandas resolves a unique label). -/
def cellAt (cols : List String) (r : List Value) (c : String) : Value :=
  (r.get? (cols.indexOf c)).getD .vNull

/-- The values of column `c`, top to bottom (`df[c]` as a list). -/
def DataFrame.colValues (df : DataFrame) (c : String) : List Value :=
  df.rows.map (fun r => cellAt df.columns r c)

/-- `df.rename(columns=m)`: returns a new frame whose column names are
translated through the mapping; names without an entry are kept. -/
def renameColumns (m : List (String × String)) (df : DataFrame) : DataFrame :=
  { df with columns := df.columns.map (fun c => (m.lookup c).getD c) }

/-- Evaluate a fallible transform on every element, left to right,
stopping at the first error — the order in which `Series.apply`
evaluates a Python lambda that can raise. -/
def mapExcept (f : α → Except PipeErr β) : List α → Except PipeErr (List β)
  | [] => .ok []
  | a :: as =>
      match f a with
      | .error e => .error e
      | .ok b =>
          match mapExcept f as with
          | .error e => .error e
          | .ok bs => .ok (b :: bs)

/-- `df[c] = df[c].apply(f)`: reading a missing column raises KeyError
(the spec's `SchemaMismatch`); otherwise `f` runs on every cell and the
column is replaced in place. -/
def applyColumn (df : DataFrame) (c : String) (f : Value → Except PipeErr Value) :
    Except PipeErr DataFrame :=
  if c ∈ df.columns then
    match mapExcept f (df.colValues c) with
    | .error e => .error e
    | .ok vs =>
        .ok { df with
              rows := (df.rows.zip vs).map (fun p => p.1.set (df.columns.indexOf c) p.2) }
  else .error .schemaMismatch

/-- `df[cs]`: project to the given columns, in the given order, keeping
the index; a missing column raises KeyError. -/
def projectColumns (df : DataFrame) (cs : List String) : Except PipeErr DataFrame :=
  if cs.all (fun c => df.columns.contains c) then
    .ok { columns := cs, index := df.index,
          rows := df.rows.map (fun r => cs.map (fun c => cellAt df.columns r c)) }
  else .error .schemaMismatch

/-- `drop_duplicates(keep="first")` on a list: keep the first occurrence
of every element, in order of first occurrence. -/
def dedupFirstAux [DecidableEq α] (seen : List α) : List α → List α
  | [] => []
  | x :: xs =>
      if x ∈ seen then dedupFirstAux seen xs
      else x :: dedupFirstAux (x :: seen) xs

/-- `drop_duplicates()` of pandas (default `keep="first"`). -/
def dedupFirst [DecidableEq α] (l : List α) : List α := dedupFirstAux [] l

/-- The heap of live dataframe objects: references are list positions,
allocation appends.  It makes in-place column assignment observable. -/
abbrev Heap := List DataFrame

abbrev Ref := Nat

def heapGet? (h : Heap) (r : Ref) : Option DataFrame := h.get? r

/-- Allocate a fresh frame (e.g. `df.copy()`, or the new object returned
by `rename` / projection). -/
def heapAlloc (h : Heap) (df : DataFrame) : Heap × Ref := (h ++ [df], h.length)

/-- Overwrite the frame an existing reference points to (in-place column
assignment mutates the pointed-to object). -/
def heapSet (h : Heap) (r : Ref) (df : DataFrame) : Heap := h.set r df

/-- `RENAME_COLUMNS` of `clean_customer_data`. -/
def CUSTOMER_RENAME_COLUMNS : List (String × String) :=
  [("CustomerKey", "customer_id"), ("Gender", "gender"), ("Name", "name"),
   ("City", "city"), ("State Code", "state"), ("Zip Code", "zip"),
   ("Country", "country"), ("Continent", "continent"), ("Birthday", "dob")]

/-- `RETAIN_COLUMNS` of `clean_customer_data`. -/
def CUSTOMER_RETAIN_COLUMNS : List String :=
  ["customer_id", "name", "city", "state", "zip", "country"]

/-- `clean_customer_data(df_original)` of `cookbook1.py`, step for step:
copy the original, rename columns, map country names to codes
(KeyError → `UnknownCategory` on an unmapped name), title-case cities,
and project to `RETAIN_COLUMNS`.  The two column assignments mutate the
working copy in place; the caller's frame is only read. -/
def clean_customer_data (h : Heap) (dfOriginal : Ref) : Except PipeErr (Heap × Ref) :=
  match heapGet? h dfOriginal with
  | none => .error .invalidRef
  | some df0 =>
    -- df = df_original.copy()
    let alloc0 := heapAlloc h df0
    -- df = df.rename(columns=RENAME_COLUMNS) (rename returns a fresh frame)
    let df1 := renameColumns CUSTOMER_RENAME_COLUMNS df0
    let alloc1 := heapAlloc alloc0.1 df1
    -- df["country"] = df["country"].apply(lambda x: COUNTRY_NAME_TO_CODE[x])
    match applyColumn df1 "country" countryNameToCode with
    | .error e => .error e
    | .ok df2 =>
      let h2 := heapSet alloc1.1 alloc1.2 df2
      -- df["city"] = df["city"].apply(lambda x: x.title())
      match applyColumn df2 "city" titleCaseValue with
      | .error e => .error e
      | .ok df3 =>
        let h3 := heapSet h2 alloc1.2 df3
        -- df = df[RETAIN_COLUMNS]
        match projectColumns df3 CUSTOMER_RETAIN_COLUMNS with
        | .error e => .error e
        | .ok df4 =>
          let alloc2 := heapAlloc h3 df4
          .ok (alloc2.1, alloc2.2)

/-- The raw two-customer batch of `tests/test_cookbook1.py` (one United
States row, one Netherlands row), as read from CSV. -/
def rawCustomerBatch : DataFrame :=
  { columns := ["CustomerKey", "Gender", "Name", "City", "State Code", "State",
                "Zip Code", "Country", "Continent", "Birthday"],
    index := [0, 1],
    rows := [
      [.vInt 1693133, .vStr "Male", .vStr "Samuel Hall", .vStr "Norcross",
       .vStr "GA", .vStr "Georgia", .vStr "30091", .vStr "United States",
       .vStr "North America", .vStr "11/19/1976"],
      [.vInt 887837, .vStr "Female", .vStr "Ileen van Dael", .vStr "Utrecht",
       .vStr "UT", .vStr "Utrecht", .vStr "3532 XR", .vStr "Netherlands",
       .vStr "Europe", .vStr "9/15/1983"]] }

/-- The frame `clean_customer_data` produces on `rawCustomerBatch`:
six retained columns — no `dob` column and no date parsing. -/
def cleanedCustomerBatch : DataFrame :=
  { columns := ["customer_id", "name", "city", "state", "zip", "country"],
    index := [0, 1],
    rows := [
      [.vInt 1693133, .vStr "Samuel Hall", .vStr "Norcross", .vStr "GA",
       .vStr "30091", .vStr "US"],
      [.vInt 887837, .vStr "Ileen van Dael", .vStr "Utrecht", .vStr "UT",
       .vStr "3532 XR", .vStr "NL"]] }

/-- The frame the heap holds at the reference a successful clean returns. -/
def cleanResultFrame (e : Except PipeErr (Heap × Ref)) : Option DataFrame :=
  match e with
  | .ok p => heapGet? p.1 p.2
  | .error _ => none

example : cleanResultFrame (clean_customer_data [rawCustomerBatch] 0) =
    some cleanedCustomerBatch := by decide

/-- `RENAME_COLUMNS` of `clean_product_data`. -/
def PRODUCT_RENAME_COLUMNS : List (String × String) :=
  [("ProductKey", "product_id"), ("Product Name", "name"), ("Brand", "brand"),
   ("Color", "color"), ("Unit Cost USD", "unit_cost_usd"),
   ("Unit Price USD", "unit_price_usd"),
   ("SubcategoryKey", "product_subcategory_id"),
   ("Subcategory", "product_subcategory_name"),
   ("CategoryKey", "product_category_id"), ("Category", "product_category_name")]

/-- `PRODUCT_RETAIN_COLUMNS` of `clean_product_data`. -/
def PRODUCT_RETAIN_COLUMNS : List String :=
  ["product_id", "name", "brand", "color", "unit_cost_usd", "unit_price_usd",
   "product_category_id", "product_subcategory_id"]

/-- The currency-cleaning loop of `clean_product_data`: the two
`df[col] = df[col].apply(...)` assignments for `unit_cost_usd` and
`unit_price_usd`, in program order. -/
def cleanProductCurrency (df : DataFrame) : Except PipeErr DataFrame :=
  match applyColumn df "unit_cost_usd" parseCurrencyValue with
  | .error e => .error e
  | .ok df1 => applyColumn df1 "unit_price_usd" parseCurrencyValue

/-- One of the two derived lookup frames of `clean_product_data`:
`df[[idCol, nameCol]].copy().drop_duplicates().reset_index(drop=True)
.rename(columns={nameCol: "name"})`. -/
def deriveLookupFrame (df : DataFrame) (idCol nameCol : String) :
    Except PipeErr DataFrame :=
  match projectColumns df [idCol, nameCol] with
  | .error e => .error e
  | .ok sub =>
      let rows := dedupFirst sub.rows
      .ok (renameColumns [(nameCol, "name")]
            { columns := sub.columns, index := List.range rows.length, rows := rows })

/-- `clean_product_data(df_original)` of `cookbook2.py`: copy, rename,
clean the two currency columns in place, derive the category and
subcategory lookup frames, project the product frame, and return the
three frames (products, categories, subcategories). -/
def clean_product_data (h : Heap) (dfOriginal : Ref) :
    Except PipeErr (Heap × (Ref × Ref × Ref)) :=
  match heapGet? h dfOriginal with
  | none => .error .invalidRef
  | some df0 =>
    -- df_products = df_original.copy()
    let alloc0 := heapAlloc h df0
    -- df_products = df_products.rename(columns=RENAME_COLUMNS)
    let df1 := renameColumns PRODUCT_RENAME_COLUMNS df0
    let alloc1 := heapAlloc alloc0.1 df1
    -- for currency_col in [...]: df_products[currency_col] = ... (in place)
    match cleanProductCurrency df1 with
    | .error e => .error e
    | .ok df2 =>
      let h2 := heapSet alloc1.1 alloc1.2 df2
      -- df_product_categories = df_products[[...]].copy().drop_duplicates()...
      match deriveLookupFrame df2 "product_category_id" "product_category_name" with
      | .error e => .error e
      | .ok dfCats =>
        let allocC := heapAlloc h2 dfCats
        match deriveLookupFrame df2 "product_subcategory_id" "product_subcategory_name" with
        | .error e => .error e
        | .ok dfSubs =>
          let allocS := heapAlloc allocC.1 dfSubs
          -- df_products = df_products[PRODUCT_RETAIN_COLUMNS]
          match projectColumns df2 PRODUCT_RETAIN_COLUMNS with
          | .error e => .error e
          | .ok df3 =>
            let allocP := heapAlloc allocS.1 df3
            .ok (allocP.1, (allocP.2, allocC.2, allocS.2))

/-- The raw three-product batch of `tests/test_cookbook2.py`. -/
def rawProductBatch : DataFrame :=
  { columns := ["ProductKey", "Product Name", "Brand", "Color", "Unit Cost USD",
                "Unit Price USD", "SubcategoryKey", "Subcategory", "CategoryKey",
                "Category"],
    index := [0, 1, 2],
    rows := [
      [.vInt 1, .vStr "Contoso 512MB MP3 Player E51 Silver", .vStr "Contoso",
       .vStr "Silver", .vStr "$6.62 ", .vStr "$12.99 ", .vInt 101,
       .vStr "MP4&MP3", .vInt 1, .vStr "Audio"],
      [.vInt 374, .vStr "Adventure Works Laptop19W X1980 Silver",
       .vStr "Adventure Works", .vStr "Silver", .vStr "$430.38 ",
       .vStr "$1,299.00 ", .vInt 301, .vStr "Laptops", .vInt 3,
       .vStr "Computers"],
      [.vInt 657, .vStr "Proseware Duplex Scanner M200 Black", .vStr "Proseware",
       .vStr "Black", .vStr "$68.52 ", .vStr "$149.00 ", .vInt 306,
       .vStr "Printers, Scanners & Fax", .vInt 3, .vStr "Computers"]] }

/-- One per-expectation outcome inside a Validation Result.
`unexpected_index_list` is `some` of the offending natural-key values
when the result dictionary carries an `unexpected_index_list` entry
(complete diagnostic mode, row-level expectations), `none` when the
entry is absent; accessing an absent entry raises KeyError. -/
structure ExpectationResult where
  success : Bool
  unexpected_index_list : Option (List Value)
  deriving DecidableEq, Repr

/-- A GX Validation Result: overall flag plus per-expectation results. -/
structure ValidationResult where
  success : Bool
  results : List ExpectationResult
  deriving DecidableEq, Repr

/-- `separate_valid_and_invalid_product_rows(df_products, validation_result)`
of `cookbook2.py`: collect the failing expectations, read each failing
result's `unexpected_index_list` (KeyError — the spec's
`MissingDiagnostics` — when absent), deduplicate the ids, then split
`df_products` into `df[df.product_id.isin(ids)].reset_index(drop=True)`
and `df.drop(df[df.product_id.isin(ids)].index).reset_index(drop=True)`. -/
def separate_valid_and_invalid_product_rows (df : DataFrame)
    (vr : ValidationResult) : Except PipeErr (DataFrame × DataFrame) :=
  let failing := vr.results.filter (fun r => !r.success)
  match mapExcept
      (fun (r : ExpectationResult) =>
        match r.unexpected_index_list with
        | some l => .ok l
        | none => .error .missingDiagnostics)
      failing with
  | .error e => .error e
  | .ok idLists =>
    let ids := idLists.flatten.dedup
    if "product_id" ∈ df.columns then
      let isInvalid := fun (r : List Value) =>
        decide (cellAt df.columns r "product_id" ∈ ids)
      let pairs := df.index.zip df.rows
      let invalidPairs := pairs.filter (fun p => isInvalid p.2)
      let invalidRows := invalidPairs.map Prod.snd
      let dfInvalid : DataFrame :=
        { columns := df.columns, index := List.range invalidRows.length,
          rows := invalidRows }
      -- df.drop(labels) removes every row whose index label is in labels
      let dropLabels := invalidPairs.map Prod.fst
      let validRows := (pairs.filter (fun p => !dropLabels.contains p.1)).map Prod.snd
      let dfValid : DataFrame :=
        { columns := df.columns, index := List.range validRows.length,
          rows := validRows }
      .ok (dfValid, dfInvalid)
    else .error .schemaMismatch

/-- A relational table, as rows whose first cell is the primary key
(`insert_ignore` assumes the first column is the table primary key). -/
abbrev Table := List (List Value)

/-- The primary-key cell of a stored row. -/
def rowKey (r : List Value) : Value := (r.get? 0).getD .vNull

/-- `insert_ignore_dataframe_to_postgres(table_name, dataframe)` of
`db.py`: insert the frame's rows in order with
`ON CONFLICT (pk) DO NOTHING` semantics — a row whose key is already
present (from before, or from an earlier row of this statement) is
skipped — and return the number of rows actually inserted. -/
def insert_ignore_dataframe_to_postgres (table : Table) (df : DataFrame) :
    Table × Nat :=
  df.rows.foldl
    (fun acc r =>
      if rowKey r ∈ acc.1.map rowKey then acc else (acc.1 ++ [r], acc.2 + 1))
    (table, 0)

/-- Numeric view of a cell (ints and floats compare numerically). -/
def Value.asRat? : Value → Option ℚ
  | .vInt n => some (n : ℚ)
  | .vRat q => some q
  | _ => none

/-- Python type name of a cell, for `ExpectColumnValuesToBeOfType`. -/
def Value.typeName : Value → String
  | .vStr _ => "str"
  | .vInt _ => "int"
  | .vRat _ => "float"
  | .vNull => "NoneType"

/-- Modelled from the spec: the external expectation engine evaluates
`ExpectTableColumnsToMatchOrderedList` — success iff the frame's
columns equal the declared list, in order.  A table-shape expectation
carries no per-row diagnostics, so no `unexpected_index_list`. -/
def expectTableColumnsToMatchOrderedList (cols : List String) (df : DataFrame) :
    ExpectationResult :=
  { success := decide (df.columns = cols), unexpected_index_list := none }

/-- Modelled from the spec: `ExpectColumnValuesToBeOfType` — every value
of the column has the stated type (basic result format: no row keys). -/
def expectColumnValuesToBeOfType (c ty : String) (df : DataFrame) :
    ExpectationResult :=
  { success := decide (c ∈ df.columns) &&
      (df.colValues c).all (fun v => v.typeName == ty),
    unexpected_index_list := none }

/-- Modelled from the spec: `ExpectColumnValuesToBeInSet` (basic result
format: no row keys). -/
def expectColumnValuesToBeInSet (c : String) (s : List Value) (df : DataFrame) :
    ExpectationResult :=
  { success := decide (c ∈ df.columns) &&
      (df.colValues c).all (fun v => s.contains v),
    unexpected_index_list := none }

/-- Modelled from the spec: `ExpectColumnValuesToBeBetween` with a lower
bound, in complete diagnostic mode — the result lists the natural-key
values of every offending row. -/
def expectColumnValuesToBeBetweenMin (c : String) (minV : ℚ) (keyCol : String)
    (df : DataFrame) : ExpectationResult :=
  let offending := fun (r : List Value) =>
    match (cellAt df.columns r c).asRat? with
    | some q => decide (q < minV)
    | none => true
  { success := decide (c ∈ df.columns) && !(df.rows.any offending),
    unexpected_index_list :=
      some ((df.rows.filter offending).map (fun r => cellAt df.columns r keyCol)) }

/-- Modelled from the spec: `ExpectColumnPairValuesAToBeGreaterThanB`,
in complete diagnostic mode. -/
def expectColumnPairAGreaterThanB (a b keyCol : String) (df : DataFrame) :
    ExpectationResult :=
  let offending := fun (r : List Value) =>
    match (cellAt df.columns r a).asRat?, (cellAt df.columns r b).asRat? with
    | some qa, some qb => decide (qa ≤ qb)
    | _, _ => true
  { success := decide (a ∈ df.columns) && decide (b ∈ df.columns) &&
      !(df.rows.any offending),
    unexpected_index_list :=
      some ((df.rows.filter offending).map (fun r => cellAt df.columns r keyCol)) }

/-- Aggregate a suite run: overall success is the AND of the outcomes. -/
def runSuite (results : List ExpectationResult) : ValidationResult :=
  { success := results.all (fun r => r.success), results := results }

/-- `validate_customer_data(df_customers)` of `cookbook1.py`: run the
declared customer expectation suite (`batch.validate`, basic result
format) on the referenced frame.  The frame is only read; the engine
itself is external and modelled from the spec. -/
def validate_customer_data (h : Heap) (r : Ref) :
    Except PipeErr (Heap × ValidationResult) :=
  match heapGet? h r with
  | none => .error .invalidRef
  | some df =>
      .ok (h, runSuite
        ([expectTableColumnsToMatchOrderedList
            ["customer_id", "name", "city", "state", "zip", "country"] df,
          expectColumnValuesToBeOfType "customer_id" "int" df] ++
         ["name", "city", "state", "zip"].map
            (fun c => expectColumnValuesToBeOfType c "str" df) ++
         [expectColumnValuesToBeInSet "country"
            (["AU", "CA", "DE", "FR", "GB", "IT", "NL", "US"].map Value.vStr) df]))

/-- `_validate_products` of `cookbook2.py`: the product expectation
suite, run as a checkpoint with `result_format = "COMPLETE"` and
`unexpected_index_column_names = ["product_id"]`. -/
def validateProductsSuite (df : DataFrame) : ValidationResult :=
  runSuite
    [expectTableColumnsToMatchOrderedList PRODUCT_RETAIN_COLUMNS df,
     expectColumnValuesToBeBetweenMin "unit_price_usd" 1 "product_id" df,
     expectColumnPairAGreaterThanB "unit_price_usd" "unit_cost_usd" "product_id" df]

/-- `_validate_product_categories` of `cookbook2.py`. -/
def validateProductCategoriesSuite (df : DataFrame) : ValidationResult :=
  runSuite [expectTableColumnsToMatchOrderedList ["product_category_id", "name"] df]

/-- `_validate_product_subcategories` of `cookbook2.py`. -/
def validateProductSubcategoriesSuite (df : DataFrame) : ValidationResult :=
  runSuite [expectTableColumnsToMatchOrderedList ["product_subcategory_id", "name"] df]

/-- `validate_product_data(df_products, df_product_categories,
df_product_subcategories)` of `cookbook2.py`: run the three suites on
the referenced frames and return the three Validation Results.  All
three frames are only read. -/
def validate_product_data (h : Heap) (rp rc rs : Ref) :
    Except PipeErr (Heap × (ValidationResult × ValidationResult × ValidationResult)) :=
  match heapGet? h rp, heapGet? h rc, heapGet? h rs with
  | some dfp, some dfc, some dfs =>
      .ok (h, (validateProductsSuite dfp, validateProductCategoriesSuite dfc,
               validateProductSubcategoriesSuite dfs))
  | _, _, _ => .error .invalidRef

/-- The relevant tables of the target Postgres store for the cookbook-2
DAG: one table per record type. -/
structure Store where
  products : Table
  product_category : Table
  product_subcategory : Table
  deriving DecidableEq, Repr

/-- Outcome of one cookbook-2 DAG run: the store after the run, the
error-export file if one was written, and either the three insert
counts (categories, subcategories, products) or the error that aborted
the run. -/
structure RunOutput where
  store : Store
  errorFile : Option DataFrame
  outcome : Except PipeErr (Nat × Nat × Nat)
  deriving DecidableEq, Repr

/-- `cookbook2_validate_and_handle_invalid_data()` of the cookbook-2
DAG, from the point where the cleaned frames and the three Validation
Results exist (the results come from the external validation backend,
so the run is parametric in them): raise if the product-category or
product-subcategory validation failed (hard-fail — before any insert),
otherwise insert categories and subcategories; for a failing product
result partition the rows, export the invalid ones, and insert only the
valid subset (soft-fail). -/
def cookbook2_validate_and_handle_invalid_data (store : Store)
    (dfProducts dfCats dfSubs : DataFrame)
    (productResult categoryResult subcategoryResult : ValidationResult) :
    RunOutput :=
  -- if not product_category_validation_result["success"]: raise
  if !categoryResult.success then
    { store := store, errorFile := none, outcome := .error .validationHardFailure }
  -- if not product_subcategory_validation_result["success"]: raise
  else if !subcategoryResult.success then
    { store := store, errorFile := none, outcome := .error .validationHardFailure }
  else
    let insCat := insert_ignore_dataframe_to_postgres store.product_category dfCats
    let insSub := insert_ignore_dataframe_to_postgres store.product_subcategory dfSubs
    if !productResult.success then
      match separate_valid_and_invalid_product_rows dfProducts productResult with
      | .error e =>
          let store1 : Store :=
            { store with product_category := insCat.1, product_subcategory := insSub.1 }
          { store := store1, errorFile := none, outcome := .error e }
      | .ok (dfValid, dfInvalid) =>
          let insProd := insert_ignore_dataframe_to_postgres store.products dfValid
          let store1 : Store :=
            { products := insProd.1, product_category := insCat.1,
              product_subcategory := insSub.1 }
          { store := store1, errorFile := some dfInvalid,
            outcome := .ok (insCat.2, insSub.2, insProd.2) }
    else
      let insProd := insert_ignore_dataframe_to_postgres store.products dfProducts
      let store1 : Store :=
        { products := insProd.1, product_category := insCat.1,
          product_subcategory := insSub.1 }
      { store := store1, errorFile := none,
        outcome := .ok (insCat.2, insSub.2, insProd.2) }

/-- Result of `trigger_airflow_dag_and_wait_for_run`: how many status
checks were made and the sleep intervals, ending either normally or in
the "Test DAG is still running" exception. -/
inductive WaitResult where
  | finished (checksMade : Nat) (sleeps : List Nat)
  | stillRunning (checksMade : Nat) (sleeps : List Nat)
  deriving DecidableEq, Repr

def WaitResult.checksMade : WaitResult → Nat
  | .finished n _ => n
  | .stillRunning n _ => n

def WaitResult.sleeps : WaitResult → List Nat
  | .finished _ s => s
  | .stillRunning _ s => s

def WaitResult.gaveUp : WaitResult → Bool
  | .finished _ _ => false
  | .stillRunning _ _ => true

/-- The `while not dag_run_finished` loop of
`trigger_airflow_dag_and_wait_for_run` in `airflow.py`.  `oracle k` is
what the k-th `dag_run_completed` call reports.  Each pass sleeps
`dag_run_completion_checks * 10` seconds, re-checks the status,
increments the counter, and raises once the counter reaches 4.  The
counter starts at 1 and is checked against 4 after every increment, so
`checks < 4` is an invariant of the loop; it is carried as a hypothesis
to express the loop's termination measure. -/
def waitForRunLoop (oracle : Nat → Bool) (finished : Bool) (checks : Nat)
    (sleeps : List Nat) (hc : checks < 4) : WaitResult :=
  if finished then .finished checks sleeps
  else
    -- time.sleep(dag_run_completion_checks * 10)
    let sleeps1 := sleeps ++ [checks * 10]
    -- dag_run_finished = dag_run_completed(dag_id, dag_run_id)
    let finished1 := oracle (checks + 1)
    -- dag_run_completion_checks += 1; if dag_run_completion_checks == 4: raise
    if h4 : checks + 1 = 4 then .stillRunning (checks + 1) sleeps1
    else waitForRunLoop oracle finished1 (checks + 1) sleeps1 (by omega)
  termination_by 4 - checks

/-- `trigger_airflow_dag_and_wait_for_run(dag_id)` of `airflow.py`,
after the trigger: one initial `dag_run_completed` check, then the
bounded polling loop with counter starting at 1. -/
def trigger_airflow_dag_and_wait_for_run (oracle : Nat → Bool) : WaitResult :=
  waitForRunLoop oracle (oracle 1) 1 [] (by omega)

/-! Helper lemmas -/

lemma mapExcept_ok_of_forall {α β : Type} {f : α → Except PipeErr β} :
    ∀ {l : List α}, (∀ a ∈ l, ∃ b, f a = .ok b) → ∃ bs, mapExcept f l = .ok bs := by
  intro l
  induction l with
  | nil => exact fun _ => ⟨[], rfl⟩
  | cons a as ih =>
      intro h
      obtain ⟨b, hb⟩ := h a (by simp)
      obtain ⟨bs, hbs⟩ := ih (fun x hx => h x (by simp [hx]))
      exact ⟨b :: bs, by simp [mapExcept, hb, hbs]⟩

lemma mapExcept_error_of_mem {α β : Type} {f : α → Except PipeErr β} {e₀ : PipeErr}
    (herr : ∀ a e, f a = .error e → e = e₀) :
    ∀ {l : List α}, (∃ a ∈ l, ∃ e, f a = .error e) → mapExcept f l = .error e₀ := by
  intro l
  induction l with
  | nil => rintro ⟨a, ha, _⟩; exact absurd ha (by simp)
  | cons a as ih =>
      rintro ⟨x, hx, e, he⟩
      rcases List.mem_cons.mp hx with rfl | hxs
      · rw [herr x e he] at he
        simp [mapExcept, he]
      · cases hfa : f a with
        | error e' => simp [mapExcept, hfa, herr a e' hfa]
        | ok b => simp [mapExcept, hfa, ih ⟨x, hxs, e, he⟩]

/-! C3 — currency parsing -/

/-- C3 counterexample: the currency parse applied to the already-parsed
numeric value 6.62 raises AttributeError (a float has no `.replace`),
so it does not equal parsing the formatted string `"$6.62 "`, which
yields 6.62.  The claimed idempotency fails. -/
theorem currency_parse_numeric_input_counterexample :
    parseCurrencyValue (.vRat (mkRat 662 100)) ≠
      parseCurrencyValue (.vStr "$6.62 ") ∧
    parseCurrencyValue (.vStr "$6.62 ") = .ok (.vRat (mkRat 662 100)) ∧
    parseCurrencyValue (.vRat (mkRat 662 100)) = .error .attributeError := by
  refine ⟨?_, by decide, rfl⟩
  intro h
  rw [show parseCurrencyValue (.vStr "$6.62 ") = .ok (.vRat (mkRat 662 100)) by decide]
    at h
  exact absurd h (by decide)

/-- C3 (amended): parsing the formatted string forms yields the numeric
values — `"$1,299.00 "` → 1299.00 and `"$6.62 "` → 6.62 — but the parse
is not idempotent: applied to an already-numeric value (float or int)
it raises AttributeError instead of returning the number. -/
theorem currency_parse_string_forms_numeric_fails :
    parseCurrencyValue (.vStr "$1,299.00 ") = .ok (.vRat 1299) ∧
    parseCurrencyValue (.vStr "$6.62 ") = .ok (.vRat (331 / 50)) ∧
    (∀ q : ℚ, parseCurrencyValue (.vRat q) = .error .attributeError) ∧
    (∀ n : ℤ, parseCurrencyValue (.vInt n) = .error .attributeError) := by
  refine ⟨?_, ?_, fun _ => rfl, fun _ => rfl⟩
  · rw [show parseCurrencyValue (.vStr "$1,299.00 ") = .ok (.vRat (mkRat 129900 100))
      by decide]
    norm_num [show (mkRat 129900 100 : ℚ) = 1299 by norm_num]
  · rw [show parseCurrencyValue (.vStr "$6.62 ") = .ok (.vRat (mkRat 662 100))
      by decide]
    norm_num [show (mkRat 662 100 : ℚ) = 331 / 50 by norm_num]

/-! C6 — idempotent persistence -/

lemma insert_fold_skip_all (rows : List (List Value)) :
    ∀ (t : Table) (n : Nat), (∀ r ∈ rows, rowKey r ∈ t.map rowKey) →
    rows.foldl
      (fun acc r => if rowKey r ∈ acc.1.map rowKey then acc else (acc.1 ++ [r], acc.2 + 1))
      (t, n) = (t, n) := by
  induction rows with
  | nil => intro t n _; rfl
  | cons r rs ih =>
      intro t n h
      simp only [List.foldl_cons, if_pos (h r (by simp))]
      exact ih t n (fun x hx => h x (by simp [hx]))

lemma insert_fold_all_new (rows : List (List Value)) :
    ∀ (t : Table) (n : Nat), (rows.map rowKey).Nodup →
    (∀ r ∈ rows, rowKey r ∉ t.map rowKey) →
    rows.foldl
      (fun acc r => if rowKey r ∈ acc.1.map rowKey then acc else (acc.1 ++ [r], acc.2 + 1))
      (t, n) = (t ++ rows, n + rows.length) := by
  induction rows with
  | nil => intro t n _ _; simp
  | cons r rs ih =>
      intro t n hnd hnew
      simp only [List.foldl_cons, if_neg (hnew r (by simp))]
      have hcons : (rowKey r :: rs.map rowKey).Nodup := by simpa using hnd
      have hnd' : (rs.map rowKey).Nodup := hcons.of_cons
      have hhead : rowKey r ∉ rs.map rowKey := (List.nodup_cons.mp hcons).1
      rw [ih (t ++ [r]) (n + 1) hnd' ?_]
      · simp only [List.append_assoc, List.singleton_append, List.length_cons,
          Prod.mk.injEq]
        exact ⟨trivial, by omega⟩
      · intro x hx
        have h1 : rowKey x ∉ t.map rowKey := hnew x (by simp [hx])
        have h2 : rowKey x ≠ rowKey r :=
          fun hcontra => hhead (hcontra ▸ List.mem_map_of_mem rowKey hx)
        simp [h1, h2]

lemma insert_fold_key_mono (rows : List (List Value)) :
    ∀ (t : Table) (n : Nat) (k : Value), k ∈ t.map rowKey →
    k ∈ (rows.foldl
      (fun acc r => if rowKey r ∈ acc.1.map rowKey then acc else (acc.1 ++ [r], acc.2 + 1))
      (t, n)).1.map rowKey := by
  induction rows with
  | nil => intro t n k hk; exact hk
  | cons r rs ih =>
      intro t n k hk
      simp only [List.foldl_cons]
      by_cases hc : rowKey r ∈ t.map rowKey
      · rw [if_pos hc]; exact ih t n k hk
      · rw [if_neg hc]; exact ih (t ++ [r]) (n + 1) k (by simp [hk])

lemma insert_fold_keys_present (rows : List (List Value)) :
    ∀ (t : Table) (n : Nat) (r : List Value), r ∈ rows →
    rowKey r ∈ (rows.foldl
      (fun acc r => if rowKey r ∈ acc.1.map rowKey then acc else (acc.1 ++ [r], acc.2 + 1))
      (t, n)).1.map rowKey := by
  induction rows with
  | nil => intro t n r hr; exact absurd hr (by simp)
  | cons x xs ih =>
      intro t n r hr
      simp only [List.foldl_cons]
      rcases List.mem_cons.mp hr with rfl | hrs
      · by_cases hc : rowKey r ∈ t.map rowKey
        · rw [if_pos hc]; exact insert_fold_key_mono xs t n _ hc
        · rw [if_neg hc]
          exact insert_fold_key_mono xs (t ++ [r]) (n + 1) _ (by simp)
      · by_cases hc : rowKey x ∈ t.map rowKey
        · rw [if_pos hc]; exact ih t n r hrs
        · rw [if_neg hc]; exact ih (t ++ [x]) (n + 1) r hrs

/-- C6: persistence is idempotent in the natural key.  Inserting a batch
into a table that already holds every row's key inserts nothing and
leaves the table unchanged; inserting a batch with distinct keys into an
empty table inserts every row and reports the batch's row count; and
re-inserting the same batch immediately afterwards inserts 0 rows. -/
theorem insert_ignore_idempotent (df : DataFrame) (table : Table)
    (hpresent : ∀ r ∈ df.rows, rowKey r ∈ table.map rowKey)
    (hnodup : (df.rows.map rowKey).Nodup) :
    insert_ignore_dataframe_to_postgres table df = (table, 0) ∧
    insert_ignore_dataframe_to_postgres [] df = (df.rows, df.rows.length) ∧
    (insert_ignore_dataframe_to_postgres
      (insert_ignore_dataframe_to_postgres [] df).1 df).2 = 0 := by
  refine ⟨insert_fold_skip_all df.rows table 0 hpresent, ?_, ?_⟩
  · have := insert_fold_all_new df.rows [] 0 hnodup (by simp)
    simpa [insert_ignore_dataframe_to_postgres] using this
  · have hkeys : ∀ r ∈ df.rows,
        rowKey r ∈ (insert_ignore_dataframe_to_postgres [] df).1.map rowKey :=
      fun r hr => insert_fold_keys_present df.rows [] 0 r hr
    have h2 : insert_ignore_dataframe_to_postgres
        (insert_ignore_dataframe_to_postgres [] df).1 df =
        ((insert_ignore_dataframe_to_postgres [] df).1, 0) :=
      insert_fold_skip_all df.rows _ 0 hkeys
    rw [h2]

/-- Concrete instantiation of `insert_ignore_idempotent`: a two-row
batch against a table already holding both keys. -/
def insertWitnessBatch : DataFrame :=
  { columns := ["product_category_id", "name"], index := [0, 1],
    rows := [[.vInt 1, .vStr "Audio"], [.vInt 3, .vStr "Computers"]] }

def insertWitnessTable : Table :=
  [[.vInt 1, .vStr "Audio"], [.vInt 3, .vStr "Computers"]]

theorem insert_ignore_idempotent_witness :
    insert_ignore_dataframe_to_postgres insertWitnessTable insertWitnessBatch =
      (insertWitnessTable, 0) ∧
    insert_ignore_dataframe_to_postgres [] insertWitnessBatch =
      (insertWitnessBatch.rows, insertWitnessBatch.rows.length) ∧
    (insert_ignore_dataframe_to_postgres
      (insert_ignore_dataframe_to_postgres [] insertWitnessBatch).1
      insertWitnessBatch).2 = 0 :=
  insert_ignore_idempotent insertWitnessBatch insertWitnessTable (by decide) (by decide)

/-! C8 — bounded polling with linear backoff -/

/-- C8: waiting for a workflow run makes at most 4 status checks; the
successive sleep intervals grow linearly (10·k seconds before the
(k+1)-th check); and if the first three checks all report "not
finished" the wait gives up with the distinct still-running error after
exactly 4 checks instead of blocking.  The wait is a total function of
the status oracle, so it terminates on every execution. -/
theorem wait_for_run_bounded_polling (oracle : Nat → Bool) :
    (trigger_airflow_dag_and_wait_for_run oracle).checksMade ≤ 4 ∧
    (trigger_airflow_dag_and_wait_for_run oracle).sleeps =
      (List.range ((trigger_airflow_dag_and_wait_for_run oracle).checksMade - 1)).map
        (fun i => (i + 1) * 10) ∧
    ((trigger_airflow_dag_and_wait_for_run oracle).gaveUp = true ↔
      oracle 1 = false ∧ oracle 2 = false ∧ oracle 3 = false) ∧
    ((trigger_airflow_dag_and_wait_for_run oracle).gaveUp = true →
      (trigger_airflow_dag_and_wait_for_run oracle).checksMade = 4) := by
  have h1 := waitForRunLoop.eq_def
  cases ho1 : oracle 1 <;> cases ho2 : oracle 2 <;> cases ho3 : oracle 3 <;>
    simp [trigger_airflow_dag_and_wait_for_run, h1, ho1, ho2, ho3,
      WaitResult.checksMade, WaitResult.sleeps, WaitResult.gaveUp, List.range_succ]

/-- A status oracle under which the run finishes at the second check. -/
def c8FinishSecondCheck : Nat → Bool := fun k => decide (k = 2)

theorem wait_for_run_bounded_polling_witness :
    (trigger_airflow_dag_and_wait_for_run c8FinishSecondCheck).checksMade ≤ 4 ∧
    (trigger_airflow_dag_and_wait_for_run c8FinishSecondCheck).sleeps =
      (List.range
        ((trigger_airflow_dag_and_wait_for_run c8FinishSecondCheck).checksMade - 1)).map
        (fun i => (i + 1) * 10) ∧
    ((trigger_airflow_dag_and_wait_for_run c8FinishSecondCheck).gaveUp = true ↔
      c8FinishSecondCheck 1 = false ∧ c8FinishSecondCheck 2 = false ∧
        c8FinishSecondCheck 3 = false) ∧
    ((trigger_airflow_dag_and_wait_for_run c8FinishSecondCheck).gaveUp = true →
      (trigger_airflow_dag_and_wait_for_run c8FinishSecondCheck).checksMade = 4) :=
  wait_for_run_bounded_polling c8FinishSecondCheck

/-! C7: hard-fail rule sets abort before persistence -/

/-- C7: in a cookbook-2 run, if the product-category or the
product-subcategory validation result is unsuccessful, the run raises
the hard-failure error before the persistence step: the store is
untouched (no rows of any record type inserted) and no error file is
written. -/
theorem hard_fail_aborts_before_persistence (store : Store)
    (dfProducts dfCats dfSubs : DataFrame)
    (productResult categoryResult subcategoryResult : ValidationResult)
    (hfail : categoryResult.success = false ∨ subcategoryResult.success = false) :
    (cookbook2_validate_and_handle_invalid_data store dfProducts dfCats dfSubs
      productResult categoryResult subcategoryResult).store = store ∧
    (cookbook2_validate_and_handle_invalid_data store dfProducts dfCats dfSubs
      productResult categoryResult subcategoryResult).outcome =
        .error .validationHardFailure ∧
    (cookbook2_validate_and_handle_invalid_data store dfProducts dfCats dfSubs
      productResult categoryResult subcategoryResult).errorFile = none := by
  cases hcat : categoryResult.success with
  | false => simp [cookbook2_validate_and_handle_invalid_data, hcat]
  | true =>
      have hsub : subcategoryResult.success = false := by
        rcases hfail with h | h
        · rw [hcat] at h; exact absurd h (by simp)
        · exact h
      simp [cookbook2_validate_and_handle_invalid_data, hcat, hsub]

/-- Concrete instantiation of `hard_fail_aborts_before_persistence`:
a failing category result with a non-empty store and batches. -/
def c7WitnessStore : Store :=
  { products := [[.vInt 9, .vStr "existing"]], product_category := [],
    product_subcategory := [] }

def c7WitnessFailingResult : ValidationResult :=
  { success := false,
    results := [{ success := false, unexpected_index_list := none }] }

def c7WitnessPassingResult : ValidationResult :=
  { success := true, results := [{ success := true, unexpected_index_list := none }] }

theorem hard_fail_aborts_before_persistence_witness :
    (cookbook2_validate_and_handle_invalid_data c7WitnessStore insertWitnessBatch
      insertWitnessBatch insertWitnessBatch c7WitnessPassingResult
      c7WitnessFailingResult c7WitnessPassingResult).store = c7WitnessStore ∧
    (cookbook2_validate_and_handle_invalid_data c7WitnessStore insertWitnessBatch
      insertWitnessBatch insertWitnessBatch c7WitnessPassingResult
      c7WitnessFailingResult c7WitnessPassingResult).outcome =
        .error .validationHardFailure ∧
    (cookbook2_validate_and_handle_invalid_data c7WitnessStore insertWitnessBatch
      insertWitnessBatch insertWitnessBatch c7WitnessPassingResult
      c7WitnessFailingResult c7WitnessPassingResult).errorFile = none :=
  hard_fail_aborts_before_persistence c7WitnessStore insertWitnessBatch
    insertWitnessBatch insertWitnessBatch c7WitnessPassingResult
    c7WitnessFailingResult c7WitnessPassingResult (.inl rfl)

/-! C5 — partition without complete diagnostics -/

/-- A one-row product frame for the C5 counterexample. -/
def c5Batch : DataFrame :=
  { columns := PRODUCT_RETAIN_COLUMNS, index := [0],
    rows := [[.vInt 1, .vStr "p", .vStr "b", .vStr "c", .vRat 1, .vRat 2,
              .vInt 1, .vInt 101]] }

/-- A validation result not produced in complete diagnostic mode (no
per-expectation result carries an `unexpected_index_list`) in which
every expectation succeeded. -/
def c5BasicModeResult : ValidationResult :=
  { success := true,
    results := [{ success := true, unexpected_index_list := none }] }

/-- C5 counterexample: for a result that was not produced in complete
diagnostic mode but has no failing expectation, the partition does not
fail — it returns the whole batch as valid.  The claimed
`MissingDiagnostics` failure only arises when a *failing* expectation
lacks its per-row key list. -/
theorem partition_basic_mode_success_counterexample :
    (∀ r ∈ c5BasicModeResult.results, r.unexpected_index_list = none) ∧
    separate_valid_and_invalid_product_rows c5Batch c5BasicModeResult =
      .ok ({ columns := c5Batch.columns, index := [0], rows := c5Batch.rows },
           { columns := c5Batch.columns, index := [], rows := [] }) := by
  constructor
  · decide
  · rfl

/-- C5 (amended): the partition fails with `MissingDiagnostics` (the
KeyError on the absent `unexpected_index_list` entry) whenever the
supplied result has at least one failing per-expectation result that
carries no per-row key list — in particular for every failing result
not produced in complete diagnostic mode. -/
theorem partition_missing_diagnostics_error (df : DataFrame)
    (vr : ValidationResult)
    (hfail : ∃ r ∈ vr.results, r.success = false ∧ r.unexpected_index_list = none) :
    separate_valid_and_invalid_product_rows df vr = .error .missingDiagnostics := by
  obtain ⟨r, hr, hrs, hrn⟩ := hfail
  have herr : mapExcept
      (fun (x : ExpectationResult) =>
        match x.unexpected_index_list with
        | some l => (.ok l : Except PipeErr (List Value))
        | none => .error .missingDiagnostics)
      (vr.results.filter (fun x => !x.success)) = .error .missingDiagnostics := by
    apply mapExcept_error_of_mem
    · intro a e he
      cases ha : a.unexpected_index_list with
      | some l => rw [ha] at he; exact absurd he (by simp)
      | none => rw [ha] at he; exact (Except.error.injEq _ _).mp he.symm
    · refine ⟨r, List.mem_filter.mpr ⟨hr, by simp [hrs]⟩, .missingDiagnostics, ?_⟩
      rw [hrn]
  simp only [separate_valid_and_invalid_product_rows, herr]

/-- A complete-mode-shaped result whose failing expectation nevertheless
carries no key list (e.g. a basic-format failing run). -/
def c5FailingBasicResult : ValidationResult :=
  { success := false,
    results := [{ success := false, unexpected_index_list := none }] }

theorem partition_missing_diagnostics_error_witness :
    separate_valid_and_invalid_product_rows c5Batch c5FailingBasicResult =
      .error .missingDiagnostics :=
  partition_missing_diagnostics_error c5Batch c5FailingBasicResult
    ⟨{ success := false, unexpected_index_list := none }, by decide, rfl, rfl⟩

/-! C2 — customer cleaner output on the two-row batch -/

/-- C2 evaluation: on the raw two-customer batch (one United States row,
one Netherlands row) the cleaner returns the canonical six columns in
declared order with country codes `US`/`NL` and no null natural keys —
but the shape is (2, 6), not the claimed (2, 7): there is no `dob`
column (the repository's own test asserts shape `(2, 7)` with a parsed
`dob`, which this code cannot produce). -/
theorem clean_customer_two_row_batch_shape :
    cleanResultFrame (clean_customer_data [rawCustomerBatch] 0) =
      some cleanedCustomerBatch ∧
    cleanedCustomerBatch.columns =
      ["customer_id", "name", "city", "state", "zip", "country"] ∧
    cleanedCustomerBatch.columns.length = 6 ∧
    cleanedCustomerBatch.rows.length = 2 ∧
    "dob" ∉ cleanedCustomerBatch.columns ∧
    cleanedCustomerBatch.colValues "country" = [.vStr "US", .vStr "NL"] ∧
    (∀ v ∈ cleanedCustomerBatch.colValues "customer_id", v ≠ .vNull) := by
  decide

/-! C4 — country mapping totality and unknown-category failure -/

lemma countryNameToCode_error_unknown (v : Value) :
    ∀ e, countryNameToCode v = .error e → e = .unknownCategory := by
  intro e he
  cases v with
  | vStr s =>
      simp only [countryNameToCode] at he
      cases hl : COUNTRY_NAME_TO_CODE.lookup s with
      | some c => rw [hl] at he; exact absurd he (by simp)
      | none => rw [hl] at he; simpa using he.symm
  | vInt n => simpa [countryNameToCode] using he.symm
  | vRat q => simpa [countryNameToCode] using he.symm
  | vNull => simpa [countryNameToCode] using he.symm

lemma countryNameToCode_error_of_unmapped (v : Value)
    (hv : countryMapped v = false) :
    countryNameToCode v = .error .unknownCategory := by
  cases v with
  | vStr s =>
      simp only [countryMapped] at hv
      cases hl : COUNTRY_NAME_TO_CODE.lookup s with
      | some c => rw [hl] at hv; exact absurd hv (by simp)
      | none => simp only [countryNameToCode]; rw [hl]
  | vInt n => rfl
  | vRat q => rfl
  | vNull => rfl

lemma applyColumn_error_of_bad_cell (df : DataFrame) (c : String)
    (f : Value → Except PipeErr Value) (e₀ : PipeErr)
    (herr : ∀ v e, f v = .error e → e = e₀)
    (hc : c ∈ df.columns)
    (hbad : ∃ v ∈ df.colValues c, ∃ e, f v = .error e) :
    applyColumn df c f = .error e₀ := by
  unfold applyColumn
  rw [if_pos hc, mapExcept_error_of_mem herr hbad]

/-- C4: the country-name mapping is total over the 8 declared countries
— 8 entries, pairwise-distinct names, pairwise-distinct 2-letter codes —
and cleaning any batch whose (renamed) `country` column contains a value
outside the mapping fails with the `UnknownCategory` error (the KeyError
of the dictionary lookup). -/
theorem country_mapping_total_unknown_fails (h : Heap) (r : Ref) (df : DataFrame)
    (hget : heapGet? h r = some df)
    (hcol : "country" ∈ (renameColumns CUSTOMER_RENAME_COLUMNS df).columns)
    (hbad : ∃ v ∈ (renameColumns CUSTOMER_RENAME_COLUMNS df).colValues "country",
        countryMapped v = false) :
    (COUNTRY_NAME_TO_CODE.length = 8 ∧
     (COUNTRY_NAME_TO_CODE.map Prod.fst).Nodup ∧
     (COUNTRY_NAME_TO_CODE.map Prod.snd).Nodup ∧
     (∀ p ∈ COUNTRY_NAME_TO_CODE, p.2.length = 2)) ∧
    clean_customer_data h r = .error .unknownCategory := by
  refine ⟨by decide, ?_⟩
  have happly : applyColumn (renameColumns CUSTOMER_RENAME_COLUMNS df) "country"
      countryNameToCode = .error .unknownCategory := by
    apply applyColumn_error_of_bad_cell _ _ _ _ countryNameToCode_error_unknown hcol
    obtain ⟨v, hv, hvm⟩ := hbad
    exact ⟨v, hv, .unknownCategory, countryNameToCode_error_of_unmapped v hvm⟩
  simp only [clean_customer_data, hget, happly]

/-- A batch whose country value is outside the declared set. -/
def c4BadCountryBatch : DataFrame :=
  { columns := ["Country"], index := [0], rows := [[.vStr "Atlantis"]] }

theorem country_mapping_total_unknown_fails_witness :
    (COUNTRY_NAME_TO_CODE.length = 8 ∧
     (COUNTRY_NAME_TO_CODE.map Prod.fst).Nodup ∧
     (COUNTRY_NAME_TO_CODE.map Prod.snd).Nodup ∧
     (∀ p ∈ COUNTRY_NAME_TO_CODE, p.2.length = 2)) ∧
    clean_customer_data [c4BadCountryBatch] 0 = .error .unknownCategory :=
  country_mapping_total_unknown_fails [c4BadCountryBatch] 0 c4BadCountryBatch rfl
    (by decide) ⟨.vStr "Atlantis", by decide, by decide⟩

/-! C1 — partition completeness -/

lemma filter_length_split {α : Type} (p : α → Bool) (l : List α) :
    (l.filter p).length + (l.filter (fun a => !p a)).length = l.length := by
  induction l with
  | nil => rfl
  | cons a as ih => cases hp : p a <;> simp [List.filter_cons, hp] <;> omega

lemma zip_filter_snd {α β : Type} (p : β → Bool) :
    ∀ (l1 : List α) (l2 : List β), l1.length = l2.length →
    ((l1.zip l2).filter (fun x => p x.2)).map Prod.snd = l2.filter p := by
  intro l1
  induction l1 with
  | nil =>
      intro l2 h
      cases l2 with
      | nil => rfl
      | cons b bs => simp at h
  | cons a as ih =>
      intro l2 h
      cases l2 with
      | nil => simp at h
      | cons b bs =>
          simp only [List.zip_cons_cons, List.filter_cons]
          cases hp : p b <;> simp [hp, ih bs (by simpa using h)]

lemma mem_filter_fst_iff {α β : Type} [DecidableEq α] (pr : β → Bool)
    (pairs : List (α × β)) (hnd : (pairs.map Prod.fst).Nodup)
    (p : α × β) (hp : p ∈ pairs) :
    p.1 ∈ (pairs.filter (fun q => pr q.2)).map Prod.fst ↔ pr p.2 = true := by
  constructor
  · intro hmem
    obtain ⟨q, hq, hq1⟩ := List.mem_map.mp hmem
    have hqpairs : q ∈ pairs := (List.mem_filter.mp hq).1
    have hqpr : pr q.2 = true := (List.mem_filter.mp hq).2
    have hqp : q = p := List.inj_on_of_nodup_map hnd hqpairs hp hq1
    rwa [← hqp]
  · intro hpr
    exact List.mem_map.mpr ⟨p, List.mem_filter.mpr ⟨hp, hpr⟩, rfl⟩

/-- Dropping by the labels of the rows matching `pr` removes exactly the
matching rows, when the labels are distinct. -/
lemma drop_partition {α β : Type} [DecidableEq α] (pr : β → Bool)
    (l1 : List α) (l2 : List β) (hlen : l1.length = l2.length) (hnd : l1.Nodup) :
    ((l1.zip l2).filter
        (fun p => !(((l1.zip l2).filter (fun p => pr p.2)).map Prod.fst).contains p.1)).map
      Prod.snd = l2.filter (fun b => !pr b) ∧
    ((l1.zip l2).filter (fun p => pr p.2)).map Prod.snd = l2.filter pr := by
  have hfstnd : ((l1.zip l2).map Prod.fst).Nodup := by
    rw [List.map_fst_zip l1 l2 (le_of_eq hlen)]; exact hnd
  constructor
  · have hcongr : (l1.zip l2).filter
        (fun p => !(((l1.zip l2).filter (fun p => pr p.2)).map Prod.fst).contains p.1) =
        (l1.zip l2).filter (fun p => !pr p.2) := by
      apply List.filter_congr
      intro p hp
      have hiff := mem_filter_fst_iff pr (l1.zip l2) hfstnd p hp
      cases hpi : pr p.2 with
      | true =>
          have hm := hiff.mpr hpi
          simp [hpi, hm]
      | false =>
          have hnm : p.1 ∉ ((l1.zip l2).filter (fun p => pr p.2)).map Prod.fst := by
            intro hmem
            rw [hiff.mp hmem] at hpi
            exact absurd hpi (by simp)
          simp [hpi, hnm]
    rw [hcongr]
    exact zip_filter_snd (fun b => !pr b) l1 l2 hlen
  · exact zip_filter_snd pr l1 l2 hlen

/-- C1: for every product batch (well-formed: one label per row, unique
index labels, a `product_id` column) and every complete-mode validation
result (every failing per-expectation result carries its key list), the
partition succeeds and returns two batches whose row counts sum to the
input's row count and whose key sets are disjoint with union exactly the
input's key set. -/
theorem partition_complete_mode_reconstructs (df : DataFrame) (vr : ValidationResult)
    (hlen : df.index.length = df.rows.length)
    (hnd : df.index.Nodup)
    (hcol : "product_id" ∈ df.columns)
    (hcomplete : ∀ r ∈ vr.results, r.success = false →
      r.unexpected_index_list.isSome) :
    ∃ valid invalid,
      separate_valid_and_invalid_product_rows df vr = .ok (valid, invalid) ∧
      valid.rows.length + invalid.rows.length = df.rows.length ∧
      (∀ k, ¬(k ∈ valid.colValues "product_id" ∧ k ∈ invalid.colValues "product_id")) ∧
      (∀ k, k ∈ df.colValues "product_id" ↔
        (k ∈ valid.colValues "product_id" ∨ k ∈ invalid.colValues "product_id")) := by
  -- In complete mode the id-collection loop cannot raise.
  obtain ⟨idLists, hml⟩ :
      ∃ bs, mapExcept
        (fun (r : ExpectationResult) =>
          match r.unexpected_index_list with
          | some l => (.ok l : Except PipeErr (List Value))
          | none => .error .missingDiagnostics)
        (vr.results.filter (fun r => !r.success)) = .ok bs := by
    apply mapExcept_ok_of_forall
    intro a ha
    have hares := List.mem_filter.mp ha
    have hfalse : a.success = false := by simpa using hares.2
    obtain ⟨l, hl⟩ := Option.isSome_iff_exists.mp (hcomplete a hares.1 hfalse)
    exact ⟨l, by rw [hl]⟩
  obtain ⟨hv, hi⟩ := drop_partition
    (fun r => decide (cellAt df.columns r "product_id" ∈ idLists.flatten.dedup))
    df.index df.rows hlen hnd
  refine ⟨{ columns := df.columns,
            index := List.range (df.rows.filter
              (fun r => !decide (cellAt df.columns r "product_id" ∈
                idLists.flatten.dedup))).length,
            rows := df.rows.filter
              (fun r => !decide (cellAt df.columns r "product_id" ∈
                idLists.flatten.dedup)) },
          { columns := df.columns,
            index := List.range (df.rows.filter
              (fun r => decide (cellAt df.columns r "product_id" ∈
                idLists.flatten.dedup))).length,
            rows := df.rows.filter
              (fun r => decide (cellAt df.columns r "product_id" ∈
                idLists.flatten.dedup)) },
          ?_, ?_, ?_, ?_⟩
  · simp only [separate_valid_and_invalid_product_rows, hml, if_pos hcol]
    rw [hv, hi]
  · simpa [Nat.add_comm] using filter_length_split
      (fun r => decide (cellAt df.columns r "product_id" ∈ idLists.flatten.dedup))
      df.rows
  · intro k ⟨hkv, hki⟩
    simp only [DataFrame.colValues] at hkv hki
    obtain ⟨r, hr, hrk⟩ := List.mem_map.mp hkv
    obtain ⟨r', hr', hrk'⟩ := List.mem_map.mp hki
    have h1 : cellAt df.columns r "product_id" ∉ idLists.flatten.dedup := by
      have := (List.mem_filter.mp hr).2
      simpa using this
    have h2 : cellAt df.columns r' "product_id" ∈ idLists.flatten.dedup := by
      have := (List.mem_filter.mp hr').2
      simpa using this
    rw [hrk] at h1
    rw [hrk'] at h2
    exact h1 h2
  · intro k
    simp only [DataFrame.colValues]
    constructor
    · intro hk
      obtain ⟨r, hr, hrk⟩ := List.mem_map.mp hk
      cases hri : decide (cellAt df.columns r "product_id" ∈ idLists.flatten.dedup) with
      | true =>
          exact Or.inr (List.mem_map.mpr ⟨r, List.mem_filter.mpr ⟨hr, hri⟩, hrk⟩)
      | false =>
          exact Or.inl (List.mem_map.mpr
            ⟨r, List.mem_filter.mpr ⟨hr, by simp only [hri, Bool.not_false]⟩, hrk⟩)
    · intro hk
      rcases hk with hk | hk
      · obtain ⟨r, hr, hrk⟩ := List.mem_map.mp hk
        exact List.mem_map.mpr ⟨r, (List.mem_filter.mp hr).1, hrk⟩
      · obtain ⟨r, hr, hrk⟩ := List.mem_map.mp hk
        exact List.mem_map.mpr ⟨r, (List.mem_filter.mp hr).1, hrk⟩

/-- A three-row product batch for the C1 witness. -/
def c1Batch : DataFrame :=
  { columns := PRODUCT_RETAIN_COLUMNS, index := [0, 1, 2],
    rows := [
      [.vInt 1, .vStr "a", .vStr "b", .vStr "c", .vRat 1, .vRat 2, .vInt 1, .vInt 101],
      [.vInt 2, .vStr "d", .vStr "e", .vStr "f", .vRat 5, .vRat 3, .vInt 1, .vInt 101],
      [.vInt 3, .vStr "g", .vStr "h", .vStr "i", .vRat 2, .vRat 9, .vInt 3, .vInt 301]] }

/-- A complete-mode result flagging row 2 under the price-exceeds-cost
expectation. -/
def c1CompleteResult : ValidationResult :=
  { success := false,
    results := [
      { success := true, unexpected_index_list := some [] },
      { success := true, unexpected_index_list := some [] },
      { success := false, unexpected_index_list := some [.vInt 2] }] }

theorem partition_complete_mode_reconstructs_witness :
    ∃ valid invalid,
      separate_valid_and_invalid_product_rows c1Batch c1CompleteResult =
        .ok (valid, invalid) ∧
      valid.rows.length + invalid.rows.length = c1Batch.rows.length ∧
      (∀ k, ¬(k ∈ valid.colValues "product_id" ∧ k ∈ invalid.colValues "product_id")) ∧
      (∀ k, k ∈ c1Batch.colValues "product_id" ↔
        (k ∈ valid.colValues "product_id" ∨ k ∈ invalid.colValues "product_id")) :=
  partition_complete_mode_reconstructs c1Batch c1CompleteResult (by decide) (by decide)
    (by decide) (by decide)

/-! C9 — cleaners and validators do not mutate their input -/

/-- The heap after a customer clean: two allocations, two in-place
writes to the second allocation, one final allocation.  References into
the original heap are untouched. -/
lemma heapGet_clean_customer_shape (h : Heap) (r : Nat) (hr : r < h.length)
    (d0 d1 d2 d3 d4 : DataFrame) :
    heapGet? ((((h ++ [d0] ++ [d1]).set ((h ++ [d0]).length) d2).set
      ((h ++ [d0]).length) d3) ++ [d4]) r = heapGet? h r := by
  have hne : (h ++ [d0]).length ≠ r := by simp; omega
  have hX : r < (((h ++ [d0] ++ [d1]).set ((h ++ [d0]).length) d2).set
      ((h ++ [d0]).length) d3).length := by simp; omega
  have h2 : r < (h ++ [d0]).length := by simp; omega
  simp only [heapGet?]
  rw [List.get?_append hX, List.get?_set_ne _ _ hne, List.get?_set_ne _ _ hne,
    List.get?_append (by simpa using h2), List.get?_append hr]

/-- The heap after a product clean: two allocations, one in-place write,
three further allocations.  References into the original heap are
untouched. -/
lemma heapGet_clean_product_shape (h : Heap) (r : Nat) (hr : r < h.length)
    (d0 d1 d2 dc ds d3 : DataFrame) :
    heapGet? (((h ++ [d0] ++ [d1]).set ((h ++ [d0]).length) d2) ++ [dc] ++ [ds] ++ [d3])
      r = heapGet? h r := by
  have hne : (h ++ [d0]).length ≠ r := by simp; omega
  have hX : r < ((h ++ [d0] ++ [d1]).set ((h ++ [d0]).length) d2).length := by
    simp; omega
  have hX1 : r < (((h ++ [d0] ++ [d1]).set ((h ++ [d0]).length) d2) ++ [dc]).length := by
    simp; omega
  have hX2 : r < ((((h ++ [d0] ++ [d1]).set ((h ++ [d0]).length) d2) ++ [dc]) ++
      [ds]).length := by simp; omega
  have h2 : r < (h ++ [d0]).length := by simp; omega
  simp only [heapGet?]
  rw [List.get?_append hX2, List.get?_append hX1, List.get?_append hX,
    List.get?_set_ne _ _ hne, List.get?_append (by simpa using h2),
    List.get?_append hr]

/-- C9: a successful clean (customer or product) leaves the caller's
frame exactly as it was — it copies the original and mutates only the
copy — and a successful validation (customer or product) leaves the
whole heap unchanged: no side effect beyond constructing the result. -/
theorem clean_validate_no_mutation
    (h1 : Heap) (r1 : Ref) (h1' : Heap) (o1 : Ref)
    (hc : clean_customer_data h1 r1 = .ok (h1', o1))
    (h2 : Heap) (r2 : Ref) (h2' : Heap) (o2 : Ref × Ref × Ref)
    (hp : clean_product_data h2 r2 = .ok (h2', o2))
    (h3 : Heap) (r3 : Ref) (h3' : Heap) (v3 : ValidationResult)
    (hvc : validate_customer_data h3 r3 = .ok (h3', v3))
    (h4 : Heap) (rp rc rs : Ref) (h4' : Heap)
    (v4 : ValidationResult × ValidationResult × ValidationResult)
    (hvp : validate_product_data h4 rp rc rs = .ok (h4', v4)) :
    heapGet? h1' r1 = heapGet? h1 r1 ∧
    heapGet? h2' r2 = heapGet? h2 r2 ∧
    h3' = h3 ∧ h4' = h4 := by
  refine ⟨?_, ?_, ?_, ?_⟩
  · cases hget : heapGet? h1 r1 with
    | none => simp [clean_customer_data, hget] at hc
    | some df0 =>
        have hr : r1 < h1.length := (List.get?_eq_some.mp hget).1
        cases ha1 : applyColumn (renameColumns CUSTOMER_RENAME_COLUMNS df0) "country"
            countryNameToCode with
        | error e => simp [clean_customer_data, hget, ha1] at hc
        | ok df2 =>
            cases ha2 : applyColumn df2 "city" titleCaseValue with
            | error e => simp [clean_customer_data, hget, ha1, ha2] at hc
            | ok df3 =>
                cases ha3 : projectColumns df3 CUSTOMER_RETAIN_COLUMNS with
                | error e => simp [clean_customer_data, hget, ha1, ha2, ha3] at hc
                | ok df4 =>
                    simp only [clean_customer_data, hget, ha1, ha2, ha3, heapAlloc,
                      heapSet, Except.ok.injEq, Prod.mk.injEq] at hc
                    rw [← hc.1]
                    exact (heapGet_clean_customer_shape h1 r1 hr df0
                      (renameColumns CUSTOMER_RENAME_COLUMNS df0) df2 df3 df4).trans hget
  · cases hget : heapGet? h2 r2 with
    | none => simp [clean_product_data, hget] at hp
    | some df0 =>
        have hr : r2 < h2.length := (List.get?_eq_some.mp hget).1
        cases ha1 : cleanProductCurrency (renameColumns PRODUCT_RENAME_COLUMNS df0) with
        | error e => simp [clean_product_data, hget, ha1] at hp
        | ok df2 =>
            cases ha2 : deriveLookupFrame df2 "product_category_id"
                "product_category_name" with
            | error e => simp [clean_product_data, hget, ha1, ha2] at hp
            | ok dfc =>
                cases ha3 : deriveLookupFrame df2 "product_subcategory_id"
                    "product_subcategory_name" with
                | error e => simp [clean_product_data, hget, ha1, ha2, ha3] at hp
                | ok dfs =>
                    cases ha4 : projectColumns df2 PRODUCT_RETAIN_COLUMNS with
                    | error e => simp [clean_product_data, hget, ha1, ha2, ha3, ha4] at hp
                    | ok df3 =>
                        simp only [clean_product_data, hget, ha1, ha2, ha3, ha4,
                          heapAlloc, heapSet, Except.ok.injEq, Prod.mk.injEq] at hp
                        rw [← hp.1]
                        exact (heapGet_clean_product_shape h2 r2 hr df0
                          (renameColumns PRODUCT_RENAME_COLUMNS df0) df2 dfc dfs
                          df3).trans hget
  · cases hget : heapGet? h3 r3 with
    | none => simp [validate_customer_data, hget] at hvc
    | some df =>
        simp only [validate_customer_data, hget, Except.ok.injEq, Prod.mk.injEq] at hvc
        exact hvc.1.symm
  · cases hgp : heapGet? h4 rp with
    | none => simp [validate_product_data, hgp] at hvp
    | some dfp =>
        cases hgc : heapGet? h4 rc with
        | none => simp [validate_product_data, hgp, hgc] at hvp
        | some dfc =>
            cases hgs : heapGet? h4 rs with
            | none => simp [validate_product_data, hgp, hgc, hgs] at hvp
            | some dfs =>
                simp only [validate_product_data, hgp, hgc, hgs, Except.ok.injEq,
                  Prod.mk.injEq] at hvp
                exact hvp.1.symm

/-- Heap produced by cleaning the raw customer fixture. -/
def c9CustomerHeap : Heap :=
  match clean_customer_data [rawCustomerBatch] 0 with
  | .ok p => p.1
  | .error _ => []

def c9CustomerRef : Ref :=
  match clean_customer_data [rawCustomerBatch] 0 with
  | .ok p => p.2
  | .error _ => 0

/-- Heap produced by cleaning the raw product fixture. -/
def c9ProductHeap : Heap :=
  match clean_product_data [rawProductBatch] 0 with
  | .ok p => p.1
  | .error _ => []

def c9ProductRefs : Ref × Ref × Ref :=
  match clean_product_data [rawProductBatch] 0 with
  | .ok p => p.2
  | .error _ => (0, 0, 0)

def c9CustomerValidation : ValidationResult :=
  match validate_customer_data [cleanedCustomerBatch] 0 with
  | .ok p => p.2
  | .error _ => { success := false, results := [] }

def c9ProductValidation : ValidationResult × ValidationResult × ValidationResult :=
  match validate_product_data [c1Batch, insertWitnessBatch, insertWitnessBatch] 0 1 2 with
  | .ok p => p.2
  | .error _ => ({ success := false, results := [] },
                 { success := false, results := [] },
                 { success := false, results := [] })

theorem clean_validate_no_mutation_witness :
    heapGet? c9CustomerHeap 0 = heapGet? [rawCustomerBatch] 0 ∧
    heapGet? c9ProductHeap 0 = heapGet? [rawProductBatch] 0 ∧
    [cleanedCustomerBatch] = [cleanedCustomerBatch] ∧
    [c1Batch, insertWitnessBatch, insertWitnessBatch] =
      [c1Batch, insertWitnessBatch, insertWitnessBatch] :=
  clean_validate_no_mutation
    [rawCustomerBatch] 0 c9CustomerHeap c9CustomerRef rfl
    [rawProductBatch] 0 c9ProductHeap c9ProductRefs rfl
    [cleanedCustomerBatch] 0 [cleanedCustomerBatch] c9CustomerValidation rfl
    [c1Batch, insertWitnessBatch, insertWitnessBatch] 0 1 2
    [c1Batch, insertWitnessBatch, insertWitnessBatch] c9ProductValidation rfl

/-! C10 — derived lookup frames keep first occurrences -/

lemma mem_dedupFirstAux {α : Type} [DecidableEq α] (a : α) :
    ∀ (l seen : List α), a ∈ dedupFirstAux seen l ↔ a ∈ l ∧ a ∉ seen := by
  intro l
  induction l with
  | nil => intro seen; simp [dedupFirstAux]
  | cons x xs ih =>
      intro seen
      simp only [dedupFirstAux]
      by_cases hx : x ∈ seen
      · rw [if_pos hx, ih]
        constructor
        · rintro ⟨h1, h2⟩; exact ⟨List.mem_cons_of_mem x h1, h2⟩
        · rintro ⟨h1, h2⟩
          rcases List.mem_cons.mp h1 with rfl | h1
          · exact absurd hx h2
          · exact ⟨h1, h2⟩
      · rw [if_neg hx]
        simp only [List.mem_cons, ih]
        constructor
        · rintro (rfl | ⟨h1, h2⟩)
          · exact ⟨Or.inl rfl, hx⟩
          · exact ⟨Or.inr h1, fun hs => h2 (Or.inr hs)⟩
        · rintro ⟨rfl | h1, h2⟩
          · exact Or.inl rfl
          · by_cases hax : a = x
            · exact Or.inl hax
            · exact Or.inr ⟨h1, fun hs => by
                rcases hs with h | h
                · exact hax h
                · exact h2 h⟩

lemma nodup_dedupFirstAux {α : Type} [DecidableEq α] :
    ∀ (l seen : List α), (dedupFirstAux seen l).Nodup := by
  intro l
  induction l with
  | nil => intro seen; simp [dedupFirstAux]
  | cons x xs ih =>
      intro seen
      simp only [dedupFirstAux]
      by_cases hx : x ∈ seen
      · rw [if_pos hx]; exact ih seen
      · rw [if_neg hx]
        refine List.nodup_cons.mpr ⟨?_, ih (x :: seen)⟩
        intro hmem
        exact ((mem_dedupFirstAux x xs (x :: seen)).mp hmem).2 (List.mem_cons_self x seen)

lemma pairwise_indexOf_dedupFirstAux {α : Type} [DecidableEq α] :
    ∀ (l seen : List α),
    (dedupFirstAux seen l).Pairwise (fun a b => l.indexOf a < l.indexOf b) := by
  intro l
  induction l with
  | nil => intro seen; simp [dedupFirstAux]
  | cons x xs ih =>
      intro seen
      simp only [dedupFirstAux]
      by_cases hx : x ∈ seen
      · rw [if_pos hx]
        refine (ih seen).imp_of_mem ?_
        intro a b ha hb hab
        have hane : a ≠ x := fun he =>
          ((mem_dedupFirstAux a xs seen).mp ha).2 (he ▸ hx)
        have hbne : b ≠ x := fun he =>
          ((mem_dedupFirstAux b xs seen).mp hb).2 (he ▸ hx)
        rw [List.indexOf_cons_ne xs (Ne.symm hane),
          List.indexOf_cons_ne xs (Ne.symm hbne)]
        omega
      · rw [if_neg hx]
        refine List.Pairwise.cons ?_ ?_
        · intro b hb
          have hbne : b ≠ x := fun he =>
            ((mem_dedupFirstAux b xs (x :: seen)).mp hb).2 (he ▸ List.mem_cons_self x seen)
          rw [List.indexOf_cons_self, List.indexOf_cons_ne xs (Ne.symm hbne)]
          omega
        · refine (ih (x :: seen)).imp_of_mem ?_
          intro a b ha hb hab
          have hane : a ≠ x := fun he =>
            ((mem_dedupFirstAux a xs (x :: seen)).mp ha).2 (he ▸ List.mem_cons_self x seen)
          have hbne : b ≠ x := fun he =>
            ((mem_dedupFirstAux b xs (x :: seen)).mp hb).2 (he ▸ List.mem_cons_self x seen)
          rw [List.indexOf_cons_ne xs (Ne.symm hane),
            List.indexOf_cons_ne xs (Ne.symm hbne)]
          omega

/-- `drop_duplicates(keep="first")`: same elements, no duplicates, and
the output is ordered by first occurrence in the input. -/
lemma dedupFirst_spec {α : Type} [DecidableEq α] (l : List α) :
    (∀ a, a ∈ dedupFirst l ↔ a ∈ l) ∧ (dedupFirst l).Nodup ∧
    (∀ a ∈ l, (dedupFirst l).count a = 1) ∧
    (dedupFirst l).Pairwise (fun a b => l.indexOf a < l.indexOf b) := by
  have hmem : ∀ a, a ∈ dedupFirst l ↔ a ∈ l := by
    intro a
    rw [dedupFirst, mem_dedupFirstAux]
    simp
  have hnd : (dedupFirst l).Nodup := nodup_dedupFirstAux l []
  refine ⟨hmem, hnd, ?_, pairwise_indexOf_dedupFirstAux l []⟩
  intro a ha
  exact List.count_eq_one_of_mem hnd ((hmem a).mpr ha)

lemma projectColumns_ok (df : DataFrame) (cs : List String) (sub : DataFrame)
    (h : projectColumns df cs = .ok sub) :
    sub = { columns := cs, index := df.index,
            rows := df.rows.map (fun r => cs.map (fun c => cellAt df.columns r c)) } := by
  unfold projectColumns at h
  by_cases hc : cs.all (fun c => df.columns.contains c)
  · rw [if_pos hc] at h
    exact ((Except.ok.injEq _ _).mp h).symm
  · rw [if_neg hc] at h
    exact absurd h (by simp)

lemma heapGet_alloc3_first (X : Heap) (dc ds d3 : DataFrame) :
    heapGet? (X ++ [dc] ++ [ds] ++ [d3]) X.length = some dc := by
  have h1 : X.length < (X ++ [dc] ++ [ds]).length := by simp
  have h2 : X.length < (X ++ [dc]).length := by simp
  simp only [heapGet?]
  rw [List.get?_append h1, List.get?_append h2, List.get?_concat_length]

lemma heapGet_alloc3_second (X : Heap) (dc ds d3 : DataFrame) :
    heapGet? (X ++ [dc] ++ [ds] ++ [d3]) (X ++ [dc]).length = some ds := by
  have h1 : (X ++ [dc]).length < (X ++ [dc] ++ [ds]).length := by simp
  simp only [heapGet?]
  rw [List.get?_append h1, List.get?_concat_length]

/-- Use the `decide`-based equality test for row comparisons, so that
`count` and `indexOf` in the statements below agree with the
`DecidableEq`-based lemmas about `dedupFirst`. -/
instance (priority := 1100) listRowBEq : BEq (List Value) := instBEqOfDecidableEq

/-- C10: on a successful product clean, the derived category and
subcategory frames are exactly `drop_duplicates` of the cleaned batch's
`(id, name)` column pairs: every pair of the batch appears exactly once,
the pairs are listed in order of first occurrence in the batch, the
frame gets a fresh consecutive row index (`reset_index`), and the name
column is renamed to `name`. -/
theorem derived_lookup_frames_dedup_first (h : Heap) (r : Ref) (df0 : DataFrame)
    (h' : Heap) (rP rC rS : Ref)
    (hget : heapGet? h r = some df0)
    (hok : clean_product_data h r = .ok (h', (rP, rC, rS))) :
    ∃ df2 catSrc subSrc dfCat dfSub,
      cleanProductCurrency (renameColumns PRODUCT_RENAME_COLUMNS df0) = .ok df2 ∧
      projectColumns df2 ["product_category_id", "product_category_name"] =
        .ok catSrc ∧
      projectColumns df2 ["product_subcategory_id", "product_subcategory_name"] =
        .ok subSrc ∧
      heapGet? h' rC = some dfCat ∧ heapGet? h' rS = some dfSub ∧
      dfCat.columns = ["product_category_id", "name"] ∧
      dfSub.columns = ["product_subcategory_id", "name"] ∧
      dfCat.rows = dedupFirst catSrc.rows ∧
      dfSub.rows = dedupFirst subSrc.rows ∧
      (∀ p, p ∈ dfCat.rows ↔ p ∈ catSrc.rows) ∧
      (∀ p ∈ catSrc.rows, dfCat.rows.count p = 1) ∧
      dfCat.rows.Pairwise (fun a b => catSrc.rows.indexOf a < catSrc.rows.indexOf b) ∧
      dfCat.index = List.range dfCat.rows.length ∧
      (∀ p, p ∈ dfSub.rows ↔ p ∈ subSrc.rows) ∧
      (∀ p ∈ subSrc.rows, dfSub.rows.count p = 1) ∧
      dfSub.rows.Pairwise (fun a b => subSrc.rows.indexOf a < subSrc.rows.indexOf b) ∧
      dfSub.index = List.range dfSub.rows.length := by
  cases ha1 : cleanProductCurrency (renameColumns PRODUCT_RENAME_COLUMNS df0) with
  | error e => simp [clean_product_data, hget, ha1] at hok
  | ok df2 =>
    cases ha2 : deriveLookupFrame df2 "product_category_id" "product_category_name" with
    | error e => simp [clean_product_data, hget, ha1, ha2] at hok
    | ok dfc =>
      cases ha3 : deriveLookupFrame df2 "product_subcategory_id"
          "product_subcategory_name" with
      | error e => simp [clean_product_data, hget, ha1, ha2, ha3] at hok
      | ok dfs =>
        cases ha4 : projectColumns df2 PRODUCT_RETAIN_COLUMNS with
        | error e => simp [clean_product_data, hget, ha1, ha2, ha3, ha4] at hok
        | ok df3 =>
          simp only [clean_product_data, hget, ha1, ha2, ha3, ha4, heapAlloc,
            heapSet, Except.ok.injEq, Prod.mk.injEq] at hok
          obtain ⟨hh, hrp, hrc, hrs⟩ := hok
          -- Unfold the two lookup-frame derivations.
          cases hpC : projectColumns df2 ["product_category_id",
              "product_category_name"] with
          | error e => simp [deriveLookupFrame, hpC] at ha2
          | ok catSrc =>
            cases hpS : projectColumns df2 ["product_subcategory_id",
                "product_subcategory_name"] with
            | error e => simp [deriveLookupFrame, hpS] at ha3
            | ok subSrc =>
              simp only [deriveLookupFrame, hpC, Except.ok.injEq] at ha2
              simp only [deriveLookupFrame, hpS, Except.ok.injEq] at ha3
              have hcatcols : catSrc.columns =
                  ["product_category_id", "product_category_name"] := by
                rw [projectColumns_ok df2 _ catSrc hpC]
              have hsubcols : subSrc.columns =
                  ["product_subcategory_id", "product_subcategory_name"] := by
                rw [projectColumns_ok df2 _ subSrc hpS]
              obtain ⟨hm, hnd, hcount, hpair⟩ := dedupFirst_spec catSrc.rows
              obtain ⟨hm', hnd', hcount', hpair'⟩ := dedupFirst_spec subSrc.rows
              refine ⟨df2, catSrc, subSrc, dfc, dfs, rfl, hpC, hpS, ?_, ?_,
                ?_, ?_, ?_, ?_, ?_, ?_, ?_, ?_, ?_, ?_, ?_, ?_⟩
              · rw [← hh, ← hrc]
                exact heapGet_alloc3_first _ dfc dfs df3
              · rw [← hh, ← hrs]
                exact heapGet_alloc3_second _ dfc dfs df3
              · rw [← ha2, renameColumns, hcatcols]; rfl
              · rw [← ha3, renameColumns, hsubcols]; rfl
              · rw [← ha2]; rfl
              · rw [← ha3]; rfl
              · intro p; rw [← ha2]; exact hm p
              · intro p hp; rw [← ha2]; exact hcount p hp
              · rw [← ha2]; exact hpair
              · rw [← ha2]; rfl
              · intro p; rw [← ha3]; exact hm' p
              · intro p hp; rw [← ha3]; exact hcount' p hp
              · rw [← ha3]; exact hpair'
              · rw [← ha3]; rfl

theorem derived_lookup_frames_dedup_first_witness :
    ∃ df2 catSrc subSrc dfCat dfSub,
      cleanProductCurrency (renameColumns PRODUCT_RENAME_COLUMNS rawProductBatch) =
        .ok df2 ∧
      projectColumns df2 ["product_category_id", "product_category_name"] =
        .ok catSrc ∧
      projectColumns df2 ["product_subcategory_id", "product_subcategory_name"] =
        .ok subSrc ∧
      heapGet? c9ProductHeap c9ProductRefs.2.1 = some dfCat ∧
      heapGet? c9ProductHeap c9ProductRefs.2.2 = some dfSub ∧
      dfCat.columns = ["product_category_id", "name"] ∧
      dfSub.columns = ["product_subcategory_id", "name"] ∧
      dfCat.rows = dedupFirst catSrc.rows ∧
      dfSub.rows = dedupFirst subSrc.rows ∧
      (∀ p, p ∈ dfCat.rows ↔ p ∈ catSrc.rows) ∧
      (∀ p ∈ catSrc.rows, dfCat.rows.count p = 1) ∧
      dfCat.rows.Pairwise (fun a b => catSrc.rows.indexOf a < catSrc.rows.indexOf b) ∧
      dfCat.index = List.range dfCat.rows.length ∧
      (∀ p, p ∈ dfSub.rows ↔ p ∈ subSrc.rows) ∧
      (∀ p ∈ subSrc.rows, dfSub.rows.count p = 1) ∧
      dfSub.rows.Pairwise (fun a b => subSrc.rows.indexOf a < subSrc.rows.indexOf b) ∧
      dfSub.index = List.range dfSub.rows.length :=
  derived_lookup_frames_dedup_first [rawProductBatch] 0 rawProductBatch
    c9ProductHeap c9ProductRefs.1 c9ProductRefs.2.1 c9ProductRefs.2.2 rfl rfl

end GxPipeline
